import Mathlib

/-!
Verification of the CERT calibration pipeline
(`src/tools/scripts/generate_cert_calibrations.py`, historical mode).

The Python source is shallowly embedded: CSV rows are `List (List String)`,
`datetime.date` becomes the `Date` structure below (proleptic Gregorian
calendar; the calendar-validity check performed by the `datetime.date`
constructor is the predicate `Date.Valid`), Python's `None`-able values
become `Option`, and exceptions become `Except`.  Python string primitives
(`str.strip`, `str.upper`, `int(...)`, `float(...)`) are modelled on ASCII
text plus the five accented Spanish vowels used by the script; exotic
Unicode case mappings, underscore digit separators and non-ASCII digits,
which never occur in the CERT sheets, are outside the model.
-/

set_option maxRecDepth 100000

namespace CertCal

/-- The single-quote character, used by `sql_escape`. -/
def squote : Char := Char.ofNat 39

/-- Whitespace stripped by Python `str.strip()` (ASCII part). -/
def isPyWs (c : Char) : Bool :=
  c = ' ' || c = '\t' || c = '\n' || c = '\r' || c = '\x0b' || c = '\x0c'

/-- Python `str.strip()` on a character list. -/
def pyStripL (cs : List Char) : List Char :=
  ((cs.dropWhile isPyWs).reverse.dropWhile isPyWs).reverse

/-- Python `str.strip()`. -/
def pyStrip (s : String) : String :=
  String.mk (pyStripL s.toList)

/-- Python `str.upper()` on one character, for ASCII letters and the five
accented Spanish lowercase vowels (the only cased characters the script's
lookups can match). -/
def pyUpperChar (c : Char) : Char :=
  if 'a' ≤ c ∧ c ≤ 'z' then Char.ofNat (c.toNat - 32)
  else if c = 'á' then 'Á'
  else if c = 'é' then 'É'
  else if c = 'í' then 'Í'
  else if c = 'ó' then 'Ó'
  else if c = 'ú' then 'Ú'
  else c

/-- Python `str.upper()`. -/
def pyUpper (s : String) : String :=
  String.mk (s.toList.map pyUpperChar)

/-- The accent-folding chain of `extract_date`:
`.replace("Á","A").replace("É","E").replace("Í","I").replace("Ó","O").replace("Ú","U")`. -/
def accentFoldChar (c : Char) : Char :=
  if c = 'Á' then 'A'
  else if c = 'É' then 'E'
  else if c = 'Í' then 'I'
  else if c = 'Ó' then 'O'
  else if c = 'Ú' then 'U'
  else c

/-- ASCII decimal digit test (`\d` of the regex, `int` digits). -/
def isDigitC (c : Char) : Bool := '0' ≤ c ∧ c ≤ '9'

/-- Numeric value of a digit list (value of `int` on a plain digit string). -/
def digitsToNat (cs : List Char) : Nat :=
  cs.foldl (fun a c => a * 10 + (c.toNat - 48)) 0

/-- Python `int(s)` for optionally signed decimal text (already usable on
stripped text; `int` itself also strips whitespace, mirrored here).
Returns `none` where Python raises `ValueError`. -/
def pyInt (s : String) : Option Int :=
  let cs := pyStripL s.toList
  match cs with
  | '+' :: ds => if ds ≠ [] ∧ ds.all isDigitC then some (digitsToNat ds : Int) else none
  | '-' :: ds => if ds ≠ [] ∧ ds.all isDigitC then some (-(digitsToNat ds : Int)) else none
  | ds => if ds ≠ [] ∧ ds.all isDigitC then some (digitsToNat ds : Int) else none

/-! ### The data model: `NA_VALUES`, `normalize_text`, dictionaries -/

/-- `NA_VALUES = {"", "NA", "ND", "N/A", "null", "NULL"}`. -/
def NA_VALUES : List String := ["", "NA", "ND", "N/A", "null", "NULL"]

/-- `normalize_text` on a (non-`None`) string: strip, then map the `NA_VALUES`
sentinels to `None`. -/
def normalize_text (value : String) : Option String :=
  let clean := pyStrip value
  if clean ∈ NA_VALUES then none else some clean

/-- `normalize_text` on an `Optional[str]` (`normalize_text(None) = None`). -/
def normalizeOpt (value : Option String) : Option String :=
  value.bind normalize_text

/-- `SPANISH_MONTHS` month-abbreviation table. -/
def SPANISH_MONTHS (k : String) : Option Nat :=
  match k with
  | "ENE" => some 1
  | "FEB" => some 2
  | "MAR" => some 3
  | "ABR" => some 4
  | "MAY" => some 5
  | "JUN" => some 6
  | "JUL" => some 7
  | "AGO" => some 8
  | "SEP" => some 9
  | "SET" => some 9
  | "OCT" => some 10
  | "NOV" => some 11
  | "DIC" => some 12
  | _ => none

/-- `PERIOD_MAP` period-label table. -/
def PERIOD_MAP (k : String) : Option String :=
  match k with
  | "PERIODO 1" => some "P1"
  | "PERIODO 2" => some "P2"
  | "EXTRAORDINARIO" => some "EXTRA"
  | _ => none

/-! ### Calendar: `datetime.date`, `calendar.monthrange`, `add_months` -/

/-- A calendar date.  Unlike `datetime.date`, the year is an unbounded
natural number; `datetime.date`'s month/day validation is the predicate
`Date.Valid` below. -/
structure Date where
  year : Nat
  month : Nat
  day : Nat
deriving DecidableEq, Repr

/-- `calendar.isleap`. -/
def isLeap (year : Nat) : Bool :=
  year % 4 = 0 && (year % 100 ≠ 0 || year % 400 = 0)

/-- `calendar.monthrange(year, month)[1]`: number of days of the month. -/
def days_in_month (year month : Nat) : Nat :=
  if month = 2 then (if isLeap year then 29 else 28)
  else if month = 4 ∨ month = 6 ∨ month = 9 ∨ month = 11 then 30
  else 31

/-- The validation performed by the `datetime.date` constructor on month and
day (its year-range check `1 ≤ year ≤ 9999` is kept separate, see
`build_sql`). -/
def Date.Valid (d : Date) : Prop :=
  1 ≤ d.month ∧ d.month ≤ 12 ∧ 1 ≤ d.day ∧ d.day ≤ days_in_month d.year d.month

instance (d : Date) : Decidable d.Valid := by
  unfold Date.Valid; infer_instance

/-- `add_months`: add whole months, day clamped into the target month. -/
def add_months (base_date : Date) (months : Nat) : Date :=
  let month_index := base_date.month - 1 + months
  let year := base_date.year + month_index / 12
  let month := month_index % 12 + 1
  let day := min base_date.day (days_in_month year month)
  ⟨year, month, day⟩

/-- `date.isoformat()` helper: decimal digits padded to width `w`
(`%04d` / `%02d`). -/
def padNum (w n : Nat) : String :=
  let s := Nat.repr n
  String.mk (List.replicate (w - s.length) '0') ++ s

/-- `date.isoformat()`. -/
def isoformat (d : Date) : String :=
  padNum 4 d.year ++ "-" ++ padNum 2 d.month ++ "-" ++ padNum 2 d.day

/-! ### `DATE_REGEX` and `extract_date`

`DATE_REGEX` is day `(\d{1,2})`, then a dash-or-slash separator, then a month
token `([A-Za-zÁÉÍÓÚáéíóú\.]+)`, then another separator, then year
`(\d{2,4})`, used with `.search` (leftmost match, greedy quantifiers with
backtracking).  The month character class is disjoint from both separators
and digits, so the greedy `+` and `{2,4}` pieces reduce to maximal runs as
encoded below; the `{1,2}` day piece keeps its two-alternative backtracking. -/

/-- Characters matched by the regex month group. -/
def isMonthChar (c : Char) : Bool :=
  ('A' ≤ c ∧ c ≤ 'Z') || ('a' ≤ c ∧ c ≤ 'z') ||
  c = 'Á' || c = 'É' || c = 'Í' || c = 'Ó' || c = 'Ú' ||
  c = 'á' || c = 'é' || c = 'í' || c = 'ó' || c = 'ú' || c = '.'

/-- Characters matched by the regex dash-or-slash separator class. -/
def isSepC (c : Char) : Bool := c = '-' || c = '/'

/-- Match the middle of the regex (month group then separator): a maximal
non-empty month-character run followed by a separator.  Returns the month
group and the remaining text. -/
def matchMonthSep (cs : List Char) : Option (List Char × List Char) :=
  let run := cs.takeWhile isMonthChar
  if run = [] then none
  else
    match cs.dropWhile isMonthChar with
    | c :: rest => if isSepC c then some (run, rest) else none
    | [] => none

/-- Match the trailing `(\d{2,4})`: at least two digits available, group is
the first at most four of the digit run. -/
def matchYear (cs : List Char) : Option (List Char) :=
  let run := cs.takeWhile isDigitC
  if 2 ≤ run.length then some (run.take 4) else none

/-- Try the whole pattern at the current position with a day group of
exactly `k` digits. -/
def matchDayAt (k : Nat) (cs : List Char) : Option (List Char × List Char × List Char) :=
  let ds := cs.take k
  if ds.length = k ∧ ds.all isDigitC then
    match cs.drop k with
    | c :: rest =>
      if isSepC c then
        match matchMonthSep rest with
        | some (mo, rest2) => (matchYear rest2).map (fun y => (ds, mo, y))
        | none => none
      else none
    | [] => none
  else none

/-- Match the pattern anchored at the current position: the greedy
`\d{1,2}` tries two digits, then one. -/
def matchDateAt (cs : List Char) : Option (List Char × List Char × List Char) :=
  (matchDayAt 2 cs).orElse (fun _ => matchDayAt 1 cs)

/-- `DATE_REGEX.search`: leftmost position where the pattern matches. -/
def date_regex_search : List Char → Option (List Char × List Char × List Char)
  | [] => none
  | c :: rest => (matchDateAt (c :: rest)).orElse (fun _ => date_regex_search rest)

/-- The month-key normalisation of `extract_date`:
`strip`, remove dots, `upper`, fold accents. -/
def monthKeyOf (cs : List Char) : String :=
  String.mk ((((pyStripL cs).filter (fun c => c ≠ '.')).map pyUpperChar).map accentFoldChar)

/-- `extract_date`: first recognisable date of a cell, else `None`
(where the Python code returns `None` after catching `ValueError`). -/
def extract_date (value : String) : Option Date :=
  if value = "" then none
  else
    match date_regex_search value.toList with
    | none => none
    | some (dayRaw, monthRaw, yearRaw) =>
      let day := digitsToNat dayRaw
      match SPANISH_MONTHS (monthKeyOf monthRaw) with
      | none => none
      | some month =>
        let y0 := digitsToNat yearRaw
        let year := if y0 < 100 then (if y0 ≤ 79 then y0 + 2000 else y0 + 1900) else y0
        if (Date.mk year month day).Valid then some ⟨year, month, day⟩ else none

/-! ### Python `float` / `int(float(...))`

`iter_events` parses the frequency cell with `int(float(raw))`, catching only
`ValueError`.  `float` is modelled with exact decimal values: a finite
result is `m · 10^e` (binary64 rounding of finite values is immaterial here
because the result is only truncated to an integer).  Overflow of the
decimal literal to `inf` (threshold `2^1024 - 2^970`, the round-to-nearest
boundary of binary64) and the `inf`/`nan` tokens are modelled because
`int(...)` raises an uncaught `OverflowError` on infinities. -/

/-- Result of Python `float(s)` when it does not raise `ValueError`; a
finite value is represented exactly as `m · 10^e`. -/
inductive PyFloat
  | finite (m : Int) (e : Int)
  | inf
  | neginf
  | nan
deriving DecidableEq, Repr

/-- Smallest magnitude at which `float(s)` rounds a finite decimal literal
to an infinity. -/
def FLOAT_OVF : Int := ((Nat.pow 2 1024 - Nat.pow 2 970 : Nat) : Int)

/-- Does the non-negative decimal value `m · 10^e` reach the binary64
overflow threshold? -/
def decimalOvf (m : Int) (e : Int) : Bool :=
  if 0 ≤ e then FLOAT_OVF ≤ m * ((Nat.pow 10 e.toNat : Nat) : Int)
  else FLOAT_OVF * ((Nat.pow 10 (-e).toNat : Nat) : Int) ≤ m

/-- ASCII lowercasing, for `float`'s case-insensitive special tokens. -/
def toLowerAscii (c : Char) : Char :=
  if 'A' ≤ c ∧ c ≤ 'Z' then Char.ofNat (c.toNat + 32) else c

/-- Exponent part of a decimal float literal: optional sign, then at least
one digit.  Returns the exponent and the remaining text. -/
def parseExpDigits (sign : Int) (cs : List Char) : Option (Int × List Char) :=
  let ds := cs.takeWhile isDigitC
  if ds = [] then none else some (sign * (digitsToNat ds : Int), cs.dropWhile isDigitC)

/-- Optional sign of the exponent part. -/
def parseExpPart : List Char → Option (Int × List Char)
  | '+' :: rest => parseExpDigits 1 rest
  | '-' :: rest => parseExpDigits (-1) rest
  | rest => parseExpDigits 1 rest

/-- Unsigned decimal float literal: digits, optional fraction, optional
exponent; anything else (including trailing text) is a `ValueError`.
Returns the mantissa (all digits) and the power-of-ten exponent. -/
def parseDecimalFloat (cs : List Char) : Option (Nat × Int) :=
  let intPart := cs.takeWhile isDigitC
  let r1 := cs.dropWhile isDigitC
  let (fracPart, r2) :=
    match r1 with
    | '.' :: rest => (rest.takeWhile isDigitC, rest.dropWhile isDigitC)
    | _ => ([], r1)
  if intPart = [] ∧ fracPart = [] then none
  else
    let m := digitsToNat (intPart ++ fracPart)
    let e0 : Int := -(fracPart.length : Int)
    match r2 with
    | 'e' :: rest =>
      match parseExpPart rest with
      | none => none
      | some (e, r3) => if r3 = [] then some (m, e0 + e) else none
    | 'E' :: rest =>
      match parseExpPart rest with
      | none => none
      | some (e, r3) => if r3 = [] then some (m, e0 + e) else none
    | [] => some (m, e0)
    | _ => none

/-- Python `float(s)`: `none` where Python raises `ValueError`. -/
def pyFloat (s : String) : Option PyFloat :=
  let cs := pyStripL s.toList
  let sgn : Int := match cs with | '-' :: _ => -1 | _ => 1
  let body : List Char := match cs with | '+' :: rest => rest | '-' :: rest => rest | rest => rest
  let low := body.map toLowerAscii
  if low = "inf".toList ∨ low = "infinity".toList then
    some (if sgn = 1 then .inf else .neginf)
  else if low = "nan".toList then some .nan
  else
    match parseDecimalFloat body with
    | none => none
    | some (m, e) =>
      if decimalOvf (m : Int) e then some (if sgn = 1 then .inf else .neginf)
      else some (.finite (sgn * (m : Int)) e)

/-- Python `int(...)` applied to a finite float `m · 10^e`: truncation
toward zero. -/
def pyTrunc (m : Int) (e : Int) : Int :=
  if 0 ≤ e then m * ((Nat.pow 10 e.toNat : Nat) : Int)
  else Int.tdiv m ((Nat.pow 10 (-e).toNat : Nat) : Int)

/-! ### The data model of the pipeline -/

/-- `CalibrationEvent` dataclass. -/
structure CalibrationEvent where
  codigo : String
  fecha : Date
  periodo : String
  periodo_label : String
  year : Int
  requerimiento : Option String
  frecuencia_meses : Option Int
deriving DecidableEq, Repr

/-- One resolved period column `(idx, period_key, period_label, year_int)`
of the `period_columns` list built from the two header rows. -/
structure PeriodCol where
  idx : Nat
  periodo : String
  label : String
  year : Int
deriving DecidableEq, Repr

/-- The ways the historical pipeline can fail:
`fileNotFound` is `FileNotFoundError(f"No se encontró el archivo: {path}")`;
`insufficientHeaders` is `ValueError("El CSV no contiene encabezados
suficientes.")`; `overflow` is the `OverflowError` raised by
`int(float(raw))` on an infinite value, which `except ValueError` does not
catch and which therefore propagates out of `iter_events`. -/
inductive IterError
  | fileNotFound (path : String)
  | insufficientHeaders
  | overflow
deriving DecidableEq, Repr

/-- Truthiness test used by `_next_relevant_row`:
`any(cell.strip() for cell in row)`. -/
def relevantRow (row : List String) : Bool :=
  row.any (fun cell => pyStrip cell ≠ "")

/-- The two `_next_relevant_row` calls of `iter_events` plus the remaining
iterator: first non-blank row, second non-blank row, rest as data rows.
`none` models the `StopIteration` turned into the header `ValueError`. -/
def splitHeaders (rows : List (List String)) :
    Option (List String × List String × List (List String)) :=
  match rows.dropWhile (fun r => !relevantRow r) with
  | [] => none
  | year_row :: rest =>
    match rest.dropWhile (fun r => !relevantRow r) with
    | [] => none
    | header_row :: data => some (year_row, header_row, data)

/-- The body of the period-column resolution loop for one `(idx, label)`
pair of `enumerate(header_row)`. -/
def resolveCol (year_row : List String) (idx : Nat) (label : String) : Option PeriodCol :=
  if idx < 9 then none
  else
    match normalizeOpt year_row[idx]?, normalize_text label with
    | some year_value, some period_label =>
      match PERIOD_MAP (pyUpper period_label), pyInt year_value with
      | some period_key, some year_int => some ⟨idx, period_key, period_label, year_int⟩
      | _, _ => none
    | _, _ => none

/-- The `for idx, label in enumerate(header_row)` loop, appending each
resolved column. -/
def resolveAux (year_row : List String) : Nat → List String → List PeriodCol
  | _, [] => []
  | idx, label :: rest =>
    match resolveCol year_row idx label with
    | some pc => pc :: resolveAux year_row (idx + 1) rest
    | none => resolveAux year_row (idx + 1) rest

/-- The resolved `period_columns` list of `iter_events`. -/
def resolvePeriodCols (year_row header_row : List String) : List PeriodCol :=
  resolveAux year_row 0 header_row

/-- Frequency parsing of `iter_events`: `int(float(raw))` under
`except ValueError` (which does not catch the `OverflowError` on
infinities). -/
def frecuenciaOf : Option String → Except IterError (Option Int)
  | none => .ok none
  | some raw =>
    match pyFloat raw with
    | none => .ok none
    | some (.finite m e) => .ok (some (pyTrunc m e))
    | some .nan => .ok none
    | some .inf => .error .overflow
    | some .neginf => .error .overflow

/-- The body of the inner `for idx, periodo, periodo_label, year_int in
period_columns` loop: the event contributed by one period column of one
data row, if any. -/
def colEvent (codigo : String) (requerimiento : Option String)
    (frecuencia_meses : Option Int) (row : List String) (pc : PeriodCol) :
    Option CalibrationEvent :=
  if row.length ≤ pc.idx then none
  else
    match normalize_text (row.getD pc.idx "") with
    | none => none
    | some celda =>
      match extract_date celda with
      | none => none
      | some fecha =>
        some ⟨codigo, fecha, pc.periodo, pc.label, pc.year,
              requerimiento, frecuencia_meses⟩

/-- The body of the data-row loop of `iter_events`: the events contributed
by one CSV row. -/
def dataRowEvents (period_columns : List PeriodCol) (row : List String) :
    Except IterError (List CalibrationEvent) :=
  if ¬ row.any (fun cell => (normalize_text cell).isSome) then .ok []
  else if row.length < 9 then .ok []
  else
    match normalize_text (row.getD 4 "") with
    | none => .ok []
    | some codigo =>
      let requerimiento := normalize_text (row.getD 7 "")
      match frecuenciaOf (normalize_text (row.getD 8 "")) with
      | .error e => .error e
      | .ok frecuencia_meses =>
        .ok (period_columns.filterMap
          (colEvent codigo requerimiento frecuencia_meses row))

/-- The full data-row loop: events of all rows in order. -/
def collectEvents (period_columns : List PeriodCol) :
    List (List String) → Except IterError (List CalibrationEvent)
  | [] => .ok []
  | row :: rest =>
    match dataRowEvents period_columns row with
    | .error e => .error e
    | .ok evs =>
      match collectEvents period_columns rest with
      | .error e => .error e
      | .ok more => .ok (evs ++ more)

/-! ### The sort key `(e.codigo, e.fecha, e.periodo)`

Python's `sorted` compares key tuples lexicographically (strings by code
point, dates chronologically) and is stable.  `sortEvents` is a stable
insertion sort: a new element is placed after every already-placed element
whose key is not strictly greater. -/

/-- Code-point lexicographic strict comparison of character lists
(Python `str <`). -/
def strLtL : List Char → List Char → Bool
  | [], [] => false
  | [], _ :: _ => true
  | _ :: _, [] => false
  | a :: as, b :: bs => if a < b then true else if b < a then false else strLtL as bs

/-- Python `str <`. -/
def StrLt (a b : String) : Prop := strLtL a.toList b.toList = true

instance (a b : String) : Decidable (StrLt a b) := by
  unfold StrLt; infer_instance

/-- Python `datetime.date <` (chronological, i.e. lexicographic on
year, month, day). -/
def DateLt (a b : Date) : Prop :=
  a.year < b.year ∨ (a.year = b.year ∧
    (a.month < b.month ∨ (a.month = b.month ∧ a.day < b.day)))

instance (a b : Date) : Decidable (DateLt a b) := by
  unfold DateLt; infer_instance

/-- Strict comparison of the sort keys `(codigo, fecha, periodo)`. -/
def KeyLt (a b : CalibrationEvent) : Prop :=
  StrLt a.codigo b.codigo ∨ (a.codigo = b.codigo ∧
    (DateLt a.fecha b.fecha ∨ (a.fecha = b.fecha ∧ StrLt a.periodo b.periodo)))

instance (a b : CalibrationEvent) : Decidable (KeyLt a b) := by
  unfold KeyLt; infer_instance

/-- Non-strict key order (what a sorted output satisfies). -/
def KeyLe (a b : CalibrationEvent) : Prop := ¬ KeyLt b a

/-- Stable insertion: the new element goes after every element whose key is
not strictly greater, as Python's stable `sorted` does. -/
def insEv (x : CalibrationEvent) : List CalibrationEvent → List CalibrationEvent
  | [] => [x]
  | y :: ys => if KeyLt x y then x :: y :: ys else y :: insEv x ys

/-- `sorted(events, key=lambda e: (e.codigo, e.fecha, e.periodo))`. -/
def sortEvents (events : List CalibrationEvent) : List CalibrationEvent :=
  events.foldl (fun acc e => insEv e acc) []

/-- `iter_events` on in-memory rows (after the file has been read):
header discovery, period-column resolution, data-row loop, final sort. -/
def iter_events_rows (rows : List (List String)) :
    Except IterError (List CalibrationEvent) :=
  match splitHeaders rows with
  | none => .error .insufficientHeaders
  | some (year_row, header_row, data) =>
    match collectEvents (resolvePeriodCols year_row header_row) data with
    | .error e => .error e
    | .ok events => .ok (sortEvents events)

/-- `iter_events`: the filesystem is a map from paths to file contents
(`none` = missing file, giving `FileNotFoundError` with the path). -/
def iter_events (fs : String → Option (List (List String))) (csv_path : String)
    (empresa_id : Int) : Except IterError (List CalibrationEvent) :=
  match fs csv_path with
  | none => .error (.fileNotFound csv_path)
  | some rows => iter_events_rows rows

/-! ### `build_sql` -/

/-- `sql_escape`: double every single quote. -/
def sql_escape (value : String) : String :=
  String.mk (value.toList.flatMap (fun c => if c = squote then [squote, squote] else [c]))

/-- Python truthiness of an `Optional[str]`. -/
def pyTruthy : Option String → Bool
  | none => false
  | some s => s ≠ ""

/-- `fecha_proxima` of one event: projected next-due date when the
frequency is present and positive; the guard mirrors the
`except ValueError` around the `datetime.date` construction inside
`add_months` (month/day validity and the year range 1..9999). -/
def fecha_proxima_of (event : CalibrationEvent) : Option Date :=
  match event.frecuencia_meses with
  | some f =>
    if 0 < f then
      let d := add_months event.fecha f.toNat
      if d.Valid ∧ 1 ≤ d.year ∧ d.year ≤ 9999 then some d else none
    else none
  | none => none

/-- The `observaciones` field of one event. -/
def observaciones_of (event : CalibrationEvent) : String :=
  let base := [event.periodo_label ++ " " ++ toString event.year,
               "Fuente: CERT_instrumentos_original_v2.csv"]
  let parts := if pyTruthy event.requerimiento
    then ("Requerimiento: " ++ event.requerimiento.getD "") :: base
    else base
  sql_escape (String.intercalate ". " parts)

/-- The `tipo` field of one event. -/
def tipo_of (event : CalibrationEvent) : String :=
  if pyTruthy event.requerimiento then sql_escape (event.requerimiento.getD "")
  else "Calibración programada"

/-- SQL literal for `fecha_proxima` (`NULL` when absent). -/
def fecha_proxima_sql_of (event : CalibrationEvent) : String :=
  match fecha_proxima_of event with
  | some d => "'" ++ isoformat d ++ "'"
  | none => "NULL"

/-- The `SET @instrumento_id = ...` lookup statement of one event. -/
def set_line_of (event : CalibrationEvent) (empresa_id : Int) : String :=
  "SET @instrumento_id = (SELECT id FROM instrumentos WHERE codigo = '" ++
  sql_escape event.codigo ++ "' AND empresa_id = " ++ toString empresa_id ++ " LIMIT 1);"

/-- The column list of the guarded insert. -/
def insert_header_line : String :=
  "INSERT INTO calibraciones (instrumento_id, empresa_id, tipo, fecha_calibracion, periodo, fecha_proxima, resultado, observaciones)"

/-- The guarded `SELECT ... FROM DUAL WHERE ... NOT EXISTS` line of one
event. -/
def values_line_of (event : CalibrationEvent) (empresa_id : Int) : String :=
  "SELECT @instrumento_id, " ++ toString empresa_id ++ ", '" ++ tipo_of event ++
  "', '" ++ isoformat event.fecha ++ "', '" ++ event.periodo ++ "', " ++
  fecha_proxima_sql_of event ++ ", NULL, '" ++ observaciones_of event ++
  "' FROM DUAL WHERE @instrumento_id IS NOT NULL AND NOT EXISTS (SELECT 1 FROM calibraciones WHERE instrumento_id = @instrumento_id AND empresa_id = " ++
  toString empresa_id ++ " AND fecha_calibracion = '" ++ isoformat event.fecha ++
  "' AND periodo = '" ++ event.periodo ++ "');"

/-- The `lines` list of `build_sql` on a non-empty event list. -/
def build_sql_lines (events : List CalibrationEvent) (empresa_id : Int) : List String :=
  ["-- Calibraciones programadas generadas desde CERT_instrumentos_original_v2.csv",
   "-- Empresa destino: " ++ toString empresa_id,
   "START TRANSACTION;"]
  ++ events.flatMap (fun event =>
      [set_line_of event empresa_id, insert_header_line,
       values_line_of event empresa_id, ""])
  ++ ["COMMIT;", ""]

/-- `build_sql`. -/
def build_sql (events : List CalibrationEvent) (empresa_id : Int) : String :=
  if events = [] then "-- No se detectaron eventos en el CSV proporcionado.\n"
  else String.intercalate "\n" (build_sql_lines events empresa_id)

/-! ### The historical `main` path -/

/-- What the historical mode of `main` produces: the files it writes and
the final message it prints. -/
structure RunResult where
  files_written : List (String × String)
  message : String
deriving DecidableEq, Repr

/-- Historical mode of `main`: run `iter_events`, emit the SQL, write
exactly one output file and report the event count; any `iter_events`
error propagates before anything is written. -/
def main_historical (fs : String → Option (List (List String)))
    (input output : String) (empresa_id : Int) : Except IterError RunResult :=
  match iter_events fs input empresa_id with
  | .error e => .error e
  | .ok events =>
    .ok ⟨[(output, build_sql events empresa_id)],
      "Se generaron " ++ toString events.length ++ " eventos en " ++ output ++
      ". Ejecuta este archivo en phpMyAdmin después de validar los datos."⟩

/-- Number of occurrences of a pattern in a character list (at any start
position, as a plain substring count). -/
def countOccL (pat : List Char) : List Char → Nat
  | [] => 0
  | c :: rest => (if pat.isPrefixOf (c :: rest) then 1 else 0) + countOccL pat rest

/-- Number of occurrences of `pat` as a substring of `s`. -/
def countSubstr (s pat : String) : Nat := countOccL pat.toList s.toList

/-- The events one data row contributes when it does not abort
(`[]` on the abort path; used to state what `collectEvents` accumulates). -/
def rowEvs (period_columns : List PeriodCol) (row : List String) :
    List CalibrationEvent :=
  match dataRowEvents period_columns row with
  | .ok l => l
  | .error _ => []

/-! ## Theorems -/

/-- `extract_date` is total and only ever returns calendar-valid dates:
every failure path of the Python function is a caught exception or an
explicit `None`. -/
theorem extract_date_none_or_valid (value : String) :
    extract_date value = none ∨ ∃ d, extract_date value = some d ∧ d.Valid := by
  unfold extract_date
  split
  · exact Or.inl rfl
  · split
    · exact Or.inl rfl
    · split
      · exact Or.inl rfl
      · dsimp only
        split_ifs <;>
          first
          | exact Or.inl rfl
          | exact Or.inr ⟨_, rfl, by assumption⟩

/-- C7: `extract_date` is total: for every input string (empty strings,
unknown month tokens, two-digit years, calendar-invalid day/month/year
combinations such as day 31 in 30-day April included) it returns either a
valid calendar date or `none`, and never raises. -/
theorem c7_extract_date_total :
    (∀ value : String,
      extract_date value = none ∨ ∃ d, extract_date value = some d ∧ d.Valid) ∧
    extract_date "" = none ∧
    extract_date "31-ABR-24" = none ∧
    extract_date "10-ZZZ-24" = none ∧
    extract_date "15-MAR-99" = some ⟨1999, 3, 15⟩ :=
  ⟨extract_date_none_or_valid, rfl, rfl, rfl, rfl⟩

/-- C6 counterexample: for a cell holding an unrecognizable date-shaped
token (`99-XYZ-99`) followed by a recognizable one (`10-ENE-24`),
`extract_date` returns no date at all — not the recognizable date the claim
promises — even though the later token alone is recognizable. -/
theorem c6_counterexample :
    extract_date "99-XYZ-99 10-ENE-24" = none ∧
    extract_date "10-ENE-24" = some ⟨2024, 1, 10⟩ :=
  ⟨rfl, rfl⟩

/-- C6 (amended): `extract_date` never raises and returns either no date or
a valid calendar date; it decodes only the leftmost date-shaped token of
the cell, returning the date when that token decodes (wherever it sits in
the text) and no date otherwise — in particular a cell whose first
date-shaped token is unrecognizable yields no date even when a
recognizable one follows. -/
theorem c6_amended :
    (∀ value : String,
      extract_date value = none ∨ ∃ d, extract_date value = some d ∧ d.Valid) ∧
    extract_date "hello 15-MAR-24!" = some ⟨2024, 3, 15⟩ ∧
    extract_date "Cal 10/SET/24 ok" = some ⟨2024, 9, 10⟩ ∧
    extract_date "99-XYZ-99 10-ENE-24" = none ∧
    extract_date "no date here" = none :=
  ⟨extract_date_none_or_valid, rfl, rfl, rfl, rfl⟩

/-- Every month of the calendar has at least 28 days. -/
theorem days_in_month_ge (year month : Nat) : 28 ≤ days_in_month year month := by
  unfold days_in_month
  split_ifs <;> omega

/-- C4: `add_months` of a valid date and `months ≥ 0` is the exact calendar
date that many whole months later — the result is valid, its linear month
index grows by exactly `months`, and its day is the original day clamped to
the length of the destination month — with the two spec examples. -/
theorem c4_add_months (d : Date) (m : Nat) (hv : d.Valid) :
    (add_months d m).Valid ∧
    (add_months d m).year * 12 + ((add_months d m).month - 1) =
      d.year * 12 + (d.month - 1) + m ∧
    (add_months d m).day =
      min d.day (days_in_month (add_months d m).year (add_months d m).month) ∧
    add_months ⟨2024, 1, 31⟩ 1 = ⟨2024, 2, 29⟩ ∧
    add_months ⟨2023, 1, 31⟩ 1 = ⟨2023, 2, 28⟩ := by
  obtain ⟨h1, h2, h3, h4⟩ := hv
  have hmod : (d.month - 1 + m) % 12 < 12 := Nat.mod_lt _ (by omega)
  have hdim := days_in_month_ge (d.year + (d.month - 1 + m) / 12) ((d.month - 1 + m) % 12 + 1)
  refine ⟨⟨?_, ?_, ?_, ?_⟩, ?_, rfl, rfl, rfl⟩
  · show 1 ≤ (d.month - 1 + m) % 12 + 1
    omega
  · show (d.month - 1 + m) % 12 + 1 ≤ 12
    omega
  · show 1 ≤ min d.day (days_in_month _ _)
    omega
  · show min d.day (days_in_month _ _) ≤ days_in_month _ _
    exact Nat.min_le_right _ _
  · show (d.year + (d.month - 1 + m) / 12) * 12 + ((d.month - 1 + m) % 12 + 1 - 1) =
      d.year * 12 + (d.month - 1) + m
    omega

/-- C4 witness: the theorem applied at 2024-01-31 plus one month. -/
theorem c4_witness :
    (add_months ⟨2024, 1, 31⟩ 1).Valid ∧
    (add_months ⟨2024, 1, 31⟩ 1).year * 12 + ((add_months ⟨2024, 1, 31⟩ 1).month - 1) =
      2024 * 12 + (1 - 1) + 1 ∧
    (add_months ⟨2024, 1, 31⟩ 1).day =
      min 31 (days_in_month (add_months ⟨2024, 1, 31⟩ 1).year (add_months ⟨2024, 1, 31⟩ 1).month) ∧
    add_months ⟨2024, 1, 31⟩ 1 = ⟨2024, 2, 29⟩ ∧
    add_months ⟨2023, 1, 31⟩ 1 = ⟨2023, 2, 28⟩ :=
  c4_add_months ⟨2024, 1, 31⟩ 1 (by decide)

/-- C1 counterexample: on the spec's literal end-to-end input (period
columns at indices 5 and 6, inside the fixed 9-column prefix the resolver
skips), `iter_events` yields no event at all — not the promised single
event — and the emitted SQL is the empty-input comment with no guarded
insert. -/
theorem c1_counterexample :
    iter_events_rows
      [["", "", "", "", "", "2024", "2024"],
       ["", "", "", "", "", "PERIODO 1", "PERIODO 2"],
       ["", "", "", "", "BAL-001", "10-ENE-24", "", "", "12"]] = .ok [] ∧
    build_sql [] 1 = "-- No se detectaron eventos en el CSV proporcionado.\n" ∧
    countSubstr (build_sql [] 1) "INSERT INTO calibraciones" = 0 :=
  ⟨rfl, rfl, rfl⟩

/-- C1 (amended): the spec's end-to-end scenario relocated to the fixed
column layout (code at column 4, frequency at column 8, the 2024 year cells
and `PERIODO 1`/`PERIODO 2` labels at columns 9 and 10, the period-1 cell
`10-ENE-24`, the period-2 cell blank) produces exactly one event — code
`BAL-001`, date 2024-01-10, period `P1`, year 2024, frequency 12 — and the
emitted SQL holds exactly one guarded insert, whose projected next-due
literal is `2025-01-10`. -/
theorem c1_amended :
    iter_events_rows
      [["", "", "", "", "", "", "", "", "", "2024", "2024"],
       ["", "", "", "", "", "", "", "", "", "PERIODO 1", "PERIODO 2"],
       ["", "", "", "", "BAL-001", "", "", "", "12", "10-ENE-24", ""]] =
      .ok [⟨"BAL-001", ⟨2024, 1, 10⟩, "P1", "PERIODO 1", 2024, none, some 12⟩] ∧
    countSubstr
      (build_sql [⟨"BAL-001", ⟨2024, 1, 10⟩, "P1", "PERIODO 1", 2024, none, some 12⟩] 1)
      "FROM DUAL WHERE @instrumento_id IS NOT NULL AND NOT EXISTS (" = 1 ∧
    countSubstr
      (build_sql [⟨"BAL-001", ⟨2024, 1, 10⟩, "P1", "PERIODO 1", 2024, none, some 12⟩] 1)
      "INSERT INTO calibraciones" = 1 ∧
    countSubstr
      (build_sql [⟨"BAL-001", ⟨2024, 1, 10⟩, "P1", "PERIODO 1", 2024, none, some 12⟩] 1)
      "'2025-01-10'" = 1 :=
  ⟨rfl, rfl, rfl, rfl⟩

/-- C10: a frequency cell that parses as a decimal but not as an integer is
truncated toward zero (`12.5` to 12, also on a full row), and a cell that
fails decimal parsing yields no frequency; but a decimal cell whose value
overflows binary64 (`1e999`) makes `int(float(...))` raise an uncaught
`OverflowError` that aborts the whole run, contradicting the claim's
"no frequency value ever aborts the run". -/
theorem c10_frequency :
    frecuenciaOf (some "12.5") = .ok (some 12) ∧
    frecuenciaOf (some "-12.5") = .ok (some (-12)) ∧
    frecuenciaOf (some "abc") = .ok none ∧
    dataRowEvents [⟨9, "P1", "PERIODO 1", 2024⟩]
      ["", "", "", "", "X", "", "", "", "12.5", "10-ENE-24"] =
      .ok [⟨"X", ⟨2024, 1, 10⟩, "P1", "PERIODO 1", 2024, none, some 12⟩] ∧
    frecuenciaOf (some "1e999") = .error .overflow ∧
    iter_events_rows
      [["", "", "", "", "", "", "", "", "", "2024"],
       ["", "", "", "", "", "", "", "", "", "PERIODO 1"],
       ["", "", "", "", "X", "", "", "", "1e999", "10-ENE-24"]] = .error .overflow :=
  ⟨rfl, rfl, rfl, rfl, rfl, rfl⟩

/-- C8: on a missing file `iter_events` fails naming the missing path and
nothing is written; on a file with fewer than two non-blank rows (leading
blank rows skipped) it fails with the insufficient-headers error and
nothing is written; on a well-formed file exactly one output file is
written together with the count of events processed.  But the
characterisation "fails exactly in those two cases" is broken by the
frequency-cell `OverflowError` slip: a well-headed file whose frequency
cell is `1e999` also aborts, with no output written. -/
theorem c8_main_historical :
    main_historical (fun _ => none) "ruta.csv" "salida.sql" 1 =
      .error (.fileNotFound "ruta.csv") ∧
    main_historical (fun _ => some [[""], ["una sola fila"], []])
      "ruta.csv" "salida.sql" 1 = .error .insufficientHeaders ∧
    main_historical
      (fun _ => some
        [["", "", "", "", "", "", "", "", "", "2024"],
         ["", "", "", "", "", "", "", "", "", "PERIODO 1"],
         ["", "", "", "", "BAL-001", "", "", "", "12", "10-ENE-24"]])
      "ruta.csv" "salida.sql" 1 =
      .ok ⟨[("salida.sql",
             build_sql [⟨"BAL-001", ⟨2024, 1, 10⟩, "P1", "PERIODO 1", 2024, none, some 12⟩] 1)],
           "Se generaron 1 eventos en salida.sql. Ejecuta este archivo en phpMyAdmin después de validar los datos."⟩ ∧
    main_historical
      (fun _ => some
        [["", "", "", "", "", "", "", "", "", "2024"],
         ["", "", "", "", "", "", "", "", "", "PERIODO 1"],
         ["", "", "", "", "BAL-001", "", "", "", "1e999", "10-ENE-24"]])
      "ruta.csv" "salida.sql" 1 = .error .overflow :=
  ⟨rfl, rfl, rfl, rfl⟩

/-! ### Order and stable-sort lemmas for C3 -/

/-- Code-point lexicographic comparison is irreflexive. -/
theorem strLtL_irrefl : ∀ a : List Char, strLtL a a = false := by
  intro a
  induction a with
  | nil => rfl
  | cons x xs ih =>
    simp only [strLtL]
    rw [if_neg (lt_irrefl x), if_neg (lt_irrefl x)]
    exact ih

/-- Code-point lexicographic comparison is asymmetric. -/
theorem strLtL_asymm : ∀ a b : List Char, strLtL a b = true → strLtL b a = false := by
  intro a
  induction a with
  | nil =>
    intro b h
    cases b with
    | nil => simp [strLtL] at h
    | cons y ys => rfl
  | cons x xs ih =>
    intro b h
    cases b with
    | nil => simp [strLtL] at h
    | cons y ys =>
      simp only [strLtL] at h ⊢
      by_cases h1 : x < y
      · rw [if_neg (lt_asymm h1), if_pos h1]
      · by_cases h2 : y < x
        · rw [if_neg h1, if_pos h2] at h
          exact absurd h Bool.false_ne_true
        · rw [if_neg h1, if_neg h2] at h
          rw [if_neg h2, if_neg h1]
          exact ih ys h

/-- Code-point lexicographic comparison is transitive. -/
theorem strLtL_trans :
    ∀ a b c : List Char, strLtL a b = true → strLtL b c = true → strLtL a c = true := by
  intro a
  induction a with
  | nil =>
    intro b c h1 h2
    cases b with
    | nil => simp [strLtL] at h1
    | cons y ys =>
      cases c with
      | nil => simp [strLtL] at h2
      | cons z zs => rfl
  | cons x xs ih =>
    intro b c h1 h2
    cases b with
    | nil => simp [strLtL] at h1
    | cons y ys =>
      cases c with
      | nil => simp [strLtL] at h2
      | cons z zs =>
        simp only [strLtL] at h1 h2 ⊢
        by_cases hxy : x < y
        · by_cases hyz : y < z
          · rw [if_pos (lt_trans hxy hyz)]
          · by_cases hzy : z < y
            · rw [if_neg hyz, if_pos hzy] at h2
              exact absurd h2 Bool.false_ne_true
            · have hyzeq : y = z := le_antisymm (not_lt.mp hzy) (not_lt.mp hyz)
              rw [if_pos (hyzeq ▸ hxy)]
        · by_cases hyx : y < x
          · rw [if_neg hxy, if_pos hyx] at h1
            exact absurd h1 Bool.false_ne_true
          · have hxyeq : x = y := le_antisymm (not_lt.mp hyx) (not_lt.mp hxy)
            subst hxyeq
            rw [if_neg hxy, if_neg hyx] at h1
            by_cases hyz : x < z
            · rw [if_pos hyz]
            · by_cases hzy : z < x
              · rw [if_neg hyz, if_pos hzy] at h2
                exact absurd h2 Bool.false_ne_true
              · rw [if_neg hyz, if_neg hzy] at h2 ⊢
                exact ih ys zs h1 h2

/-- `StrLt` is asymmetric. -/
theorem StrLt_asymm {a b : String} (h : StrLt a b) : ¬ StrLt b a := by
  intro h2
  have h3 := strLtL_asymm a.toList b.toList h
  rw [StrLt] at h2
  rw [h3] at h2
  exact Bool.false_ne_true h2

/-- `StrLt` is irreflexive. -/
theorem StrLt_irrefl (a : String) : ¬ StrLt a a := by
  intro h
  rw [StrLt, strLtL_irrefl] at h
  exact Bool.false_ne_true h

/-- `StrLt` is transitive. -/
theorem StrLt_trans {a b c : String} (h1 : StrLt a b) (h2 : StrLt b c) : StrLt a c :=
  strLtL_trans a.toList b.toList c.toList h1 h2

/-- `DateLt` is irreflexive. -/
theorem DateLt_irrefl (a : Date) : ¬ DateLt a a := by
  simp only [DateLt]
  omega

/-- `DateLt` is asymmetric. -/
theorem DateLt_asymm {a b : Date} (h : DateLt a b) : ¬ DateLt b a := by
  simp only [DateLt] at h ⊢
  omega

/-- `DateLt` is transitive. -/
theorem DateLt_trans {a b c : Date} (h1 : DateLt a b) (h2 : DateLt b c) : DateLt a c := by
  simp only [DateLt] at h1 h2 ⊢
  omega

/-- The strict key order is asymmetric. -/
theorem KeyLt_asymm {a b : CalibrationEvent} (h : KeyLt a b) : ¬ KeyLt b a := by
  intro h2
  rcases h with h | ⟨hc, h⟩
  · rcases h2 with h2 | ⟨hc2, _⟩
    · exact StrLt_asymm h h2
    · exact StrLt_irrefl _ (hc2 ▸ h)
  · rcases h2 with h2 | ⟨_, h2⟩
    · exact StrLt_irrefl _ (hc ▸ h2)
    · rcases h with h | ⟨hf, h⟩
      · rcases h2 with h2 | ⟨hf2, _⟩
        · exact DateLt_asymm h h2
        · exact DateLt_irrefl _ (hf2 ▸ h)
      · rcases h2 with h2 | ⟨_, h2⟩
        · exact DateLt_irrefl _ (hf ▸ h2)
        · exact StrLt_asymm h h2

/-- The strict key order is transitive. -/
theorem KeyLt_trans {a b c : CalibrationEvent}
    (h1 : KeyLt a b) (h2 : KeyLt b c) : KeyLt a c := by
  rcases h1 with h1 | ⟨hc1, h1⟩
  · rcases h2 with h2 | ⟨hc2, _⟩
    · exact Or.inl (StrLt_trans h1 h2)
    · exact Or.inl (hc2 ▸ h1)
  · rcases h2 with h2 | ⟨hc2, h2⟩
    · exact Or.inl (hc1 ▸ h2)
    · refine Or.inr ⟨hc1.trans hc2, ?_⟩
      rcases h1 with h1 | ⟨hf1, h1⟩
      · rcases h2 with h2 | ⟨hf2, _⟩
        · exact Or.inl (DateLt_trans h1 h2)
        · exact Or.inl (hf2 ▸ h1)
      · rcases h2 with h2 | ⟨hf2, h2⟩
        · exact Or.inl (hf1 ▸ h2)
        · exact Or.inr ⟨hf1.trans hf2, StrLt_trans h1 h2⟩

/-- Membership in a stable insertion. -/
theorem mem_insEv {z x : CalibrationEvent} :
    ∀ l, z ∈ insEv x l → z = x ∨ z ∈ l := by
  intro l
  induction l with
  | nil => intro h; simpa [insEv] using h
  | cons y ys ih =>
    simp only [insEv]
    split
    · intro h
      rcases List.mem_cons.mp h with h | h
      · exact Or.inl h
      · exact Or.inr h
    · intro h
      rcases List.mem_cons.mp h with h | h
      · exact Or.inr (h ▸ List.mem_cons_self y ys)
      · rcases ih h with h | h
        · exact Or.inl h
        · exact Or.inr (List.mem_cons_of_mem y h)

/-- Stable insertion preserves sortedness in the non-strict key order. -/
theorem pairwise_insEv {x : CalibrationEvent} :
    ∀ {l}, l.Pairwise KeyLe → (insEv x l).Pairwise KeyLe := by
  intro l
  induction l with
  | nil => intro _; exact List.pairwise_singleton KeyLe x
  | cons y ys ih =>
    intro hp
    rcases List.pairwise_cons.mp hp with ⟨hy, hys⟩
    simp only [insEv]
    split
    · rename_i hlt
      refine List.pairwise_cons.mpr ⟨?_, hp⟩
      intro z hz
      rcases List.mem_cons.mp hz with h | h
      · exact h ▸ KeyLt_asymm hlt
      · intro hzx
        exact hy z h (KeyLt_trans hzx hlt)
    · rename_i hnlt
      refine List.pairwise_cons.mpr ⟨?_, ih hys⟩
      intro z hz
      rcases mem_insEv _ hz with h | h
      · exact h ▸ hnlt
      · exact hy z h

/-- Stable insertion permutes to consing. -/
theorem perm_insEv (x : CalibrationEvent) :
    ∀ l, (insEv x l).Perm (x :: l) := by
  intro l
  induction l with
  | nil => exact List.Perm.refl _
  | cons y ys ih =>
    simp only [insEv]
    split
    · exact List.Perm.refl _
    · exact (ih.cons y).trans (List.Perm.swap x y ys)

/-- The accumulator form of `sortEvents` permutes to the input. -/
theorem foldl_insEv_perm :
    ∀ (l acc : List CalibrationEvent),
      (l.foldl (fun a e => insEv e a) acc).Perm (acc ++ l) := by
  intro l
  induction l with
  | nil => intro acc; simp
  | cons x xs ih =>
    intro acc
    have h1 := ih (insEv x acc)
    have h2 : ((insEv x acc) ++ xs).Perm ((x :: acc) ++ xs) :=
      List.Perm.append_right xs (perm_insEv x acc)
    have h3 : ((x :: acc) ++ xs).Perm (acc ++ x :: xs) := List.perm_middle.symm
    exact (h1.trans h2).trans h3

/-- `sortEvents` permutes its input (it reorders, never drops or adds). -/
theorem sortEvents_perm (l : List CalibrationEvent) : (sortEvents l).Perm l :=
  foldl_insEv_perm l []

/-- The accumulator form of `sortEvents` preserves sortedness. -/
theorem foldl_insEv_pairwise :
    ∀ (l acc : List CalibrationEvent), acc.Pairwise KeyLe →
      (l.foldl (fun a e => insEv e a) acc).Pairwise KeyLe := by
  intro l
  induction l with
  | nil => intro acc h; exact h
  | cons x xs ih => intro acc h; exact ih (insEv x acc) (pairwise_insEv h)

/-- `sortEvents` output is sorted in the non-strict key order. -/
theorem sortEvents_pairwise (l : List CalibrationEvent) :
    (sortEvents l).Pairwise KeyLe :=
  foldl_insEv_pairwise l [] List.Pairwise.nil

/-- What `collectEvents` accumulates: the concatenation of each row's
events, in row order. -/
theorem collectEvents_ok_eq (p : List PeriodCol) :
    ∀ rows events, collectEvents p rows = .ok events →
      events = rows.flatMap (rowEvs p) := by
  intro rows
  induction rows with
  | nil =>
    intro events h
    simp only [collectEvents] at h
    cases h
    simp
  | cons row rest ih =>
    intro events h
    simp only [collectEvents] at h
    cases hr : dataRowEvents p row with
    | error e => rw [hr] at h; cases h
    | ok evs =>
      rw [hr] at h
      cases hc : collectEvents p rest with
      | error e => rw [hc] at h; cases h
      | ok more =>
        rw [hc] at h
        cases h
        simp [List.flatMap_cons, rowEvs, hr, ih more hc]

/-- With both header rows non-blank, header discovery returns exactly them
plus the remaining data rows. -/
theorem splitHeaders_cons {year_row header_row : List String}
    (d : List (List String))
    (hy : relevantRow year_row = true) (hh : relevantRow header_row = true) :
    splitHeaders (year_row :: header_row :: d) = some (year_row, header_row, d) := by
  simp [splitHeaders, List.dropWhile_cons, hy, hh]

/-- C3 (amended): every successful `iter_events` output is sorted by the
key `(code, date, period_code)`, and permuting the data rows (headers
unchanged) permutes the multiset of events; the exact sequence is preserved
only up to key ties, because Python's stable sort keeps input order among
events with equal keys. -/
theorem c3_sorted_and_perm :
    (∀ rows events, iter_events_rows rows = .ok events → events.Pairwise KeyLe) ∧
    (∀ (year_row header_row : List String) (d1 d2 : List (List String))
       (e1 e2 : List CalibrationEvent),
       relevantRow year_row = true → relevantRow header_row = true →
       d1.Perm d2 →
       iter_events_rows (year_row :: header_row :: d1) = .ok e1 →
       iter_events_rows (year_row :: header_row :: d2) = .ok e2 →
       e1.Perm e2) := by
  constructor
  · intro rows events h
    unfold iter_events_rows at h
    split at h
    · cases h
    · split at h
      · cases h
      · cases h
        exact sortEvents_pairwise _
  · intro year_row header_row d1 d2 e1 e2 hy hh hperm h1 h2
    unfold iter_events_rows at h1 h2
    rw [splitHeaders_cons d1 hy hh] at h1
    rw [splitHeaders_cons d2 hy hh] at h2
    dsimp only at h1 h2
    cases hc1 : collectEvents (resolvePeriodCols year_row header_row) d1 with
    | error e => rw [hc1] at h1; cases h1
    | ok E1 =>
      rw [hc1] at h1
      cases hc2 : collectEvents (resolvePeriodCols year_row header_row) d2 with
      | error e => rw [hc2] at h2; cases h2
      | ok E2 =>
        rw [hc2] at h2
        cases h1
        cases h2
        have hE1 := collectEvents_ok_eq _ d1 E1 hc1
        have hE2 := collectEvents_ok_eq _ d2 E2 hc2
        have hmid : E1.Perm E2 := by
          rw [hE1, hE2]
          exact hperm.flatMap_right _
        exact ((sortEvents_perm E1).trans hmid).trans (sortEvents_perm E2).symm

/-- C3 witness: the permutation part applied to a concrete pair of
two-row data sections that are permutations of each other. -/
theorem c3_witness :
    List.Perm
      [⟨"X", ⟨2024, 2, 5⟩, "P1", "PERIODO 1", 2024, some "REQA", none⟩,
       ⟨"X", ⟨2024, 2, 5⟩, "P1", "PERIODO 1", 2024, some "REQB", none⟩]
      ([⟨"X", ⟨2024, 2, 5⟩, "P1", "PERIODO 1", 2024, some "REQB", none⟩,
        ⟨"X", ⟨2024, 2, 5⟩, "P1", "PERIODO 1", 2024, some "REQA", none⟩] :
        List CalibrationEvent) :=
  c3_sorted_and_perm.2
    ["", "", "", "", "", "", "", "", "", "2024"]
    ["", "", "", "", "", "", "", "", "", "PERIODO 1"]
    [["", "", "", "", "X", "", "", "REQA", "", "05-FEB-24"],
     ["", "", "", "", "X", "", "", "REQB", "", "05-FEB-24"]]
    [["", "", "", "", "X", "", "", "REQB", "", "05-FEB-24"],
     ["", "", "", "", "X", "", "", "REQA", "", "05-FEB-24"]]
    _ _ rfl rfl
    (List.Perm.swap
      ["", "", "", "", "X", "", "", "REQB", "", "05-FEB-24"]
      ["", "", "", "", "X", "", "", "REQA", "", "05-FEB-24"] [])
    rfl rfl

/-- C3 counterexample: two inputs with identical headers whose data rows
are permutations of each other, on which `iter_events` returns different
event sequences — the two events tie on the sort key `(code, date,
period_code)` but differ in their requirement text, and the stable sort
keeps them in input order. -/
theorem c3_counterexample :
    List.Perm
      [["", "", "", "", "X", "", "", "REQA", "", "05-FEB-24"],
       ["", "", "", "", "X", "", "", "REQB", "", "05-FEB-24"]]
      ([["", "", "", "", "X", "", "", "REQB", "", "05-FEB-24"],
        ["", "", "", "", "X", "", "", "REQA", "", "05-FEB-24"]] :
        List (List String)) ∧
    iter_events_rows
      [["", "", "", "", "", "", "", "", "", "2024"],
       ["", "", "", "", "", "", "", "", "", "PERIODO 1"],
       ["", "", "", "", "X", "", "", "REQA", "", "05-FEB-24"],
       ["", "", "", "", "X", "", "", "REQB", "", "05-FEB-24"]] =
      .ok [⟨"X", ⟨2024, 2, 5⟩, "P1", "PERIODO 1", 2024, some "REQA", none⟩,
           ⟨"X", ⟨2024, 2, 5⟩, "P1", "PERIODO 1", 2024, some "REQB", none⟩] ∧
    iter_events_rows
      [["", "", "", "", "", "", "", "", "", "2024"],
       ["", "", "", "", "", "", "", "", "", "PERIODO 1"],
       ["", "", "", "", "X", "", "", "REQB", "", "05-FEB-24"],
       ["", "", "", "", "X", "", "", "REQA", "", "05-FEB-24"]] =
      .ok [⟨"X", ⟨2024, 2, 5⟩, "P1", "PERIODO 1", 2024, some "REQB", none⟩,
           ⟨"X", ⟨2024, 2, 5⟩, "P1", "PERIODO 1", 2024, some "REQA", none⟩] ∧
    ([⟨"X", ⟨2024, 2, 5⟩, "P1", "PERIODO 1", 2024, some "REQA", none⟩,
      ⟨"X", ⟨2024, 2, 5⟩, "P1", "PERIODO 1", 2024, some "REQB", none⟩] :
      List CalibrationEvent) ≠
    [⟨"X", ⟨2024, 2, 5⟩, "P1", "PERIODO 1", 2024, some "REQB", none⟩,
     ⟨"X", ⟨2024, 2, 5⟩, "P1", "PERIODO 1", 2024, some "REQA", none⟩] :=
  ⟨List.Perm.swap _ _ _, rfl, rfl, by decide⟩

/-! ### Period-column resolution lemmas for C5 and C9 -/

/-- A resolved column records the index it was resolved at. -/
theorem resolveCol_idx {year_row : List String} {i : Nat} {label : String}
    {pc : PeriodCol} (h : resolveCol year_row i label = some pc) : pc.idx = i := by
  unfold resolveCol at h
  split at h
  · cases h
  · split at h
    · split at h
      · cases h; rfl
      · cases h
    · cases h

/-- Success characterisation of the per-column resolution body. -/
theorem resolveCol_eq_some_iff {year_row : List String} {idx : Nat}
    {label : String} {pc : PeriodCol} :
    resolveCol year_row idx label = some pc ↔
      (¬ idx < 9 ∧ ∃ year_value period_label period_key year_int,
        normalizeOpt year_row[idx]? = some year_value ∧
        normalize_text label = some period_label ∧
        PERIOD_MAP (pyUpper period_label) = some period_key ∧
        pyInt year_value = some year_int ∧
        pc = ⟨idx, period_key, period_label, year_int⟩) := by
  unfold resolveCol
  by_cases h9 : idx < 9
  · rw [if_pos h9]
    simp [h9]
  · rw [if_neg h9]
    cases hy : normalizeOpt year_row[idx]? with
    | none => simp [h9]
    | some yv =>
      cases hl : normalize_text label with
      | none => simp [h9]
      | some plbl =>
        cases hp : PERIOD_MAP (pyUpper plbl) with
        | none => simp [h9, hp]
        | some key =>
          cases hn : pyInt yv with
          | none => simp [h9, hp, hn]
          | some n =>
            simp only [h9, hp, hn, not_false_iff, true_and, Option.some.injEq]
            constructor
            · intro h
              exact ⟨yv, plbl, key, n, rfl, rfl, hp, hn, h.symm⟩
            · rintro ⟨a, b, c, d, ha, hb, hc, hd, hpc⟩
              cases ha
              cases hb
              rw [hp] at hc
              cases hc
              rw [hn] at hd
              cases hd
              exact hpc.symm

/-- Loop membership: a column is in the resolver output exactly when the
loop body succeeds at some enumerated position. -/
theorem mem_resolveAux {year_row : List String} :
    ∀ (hdr : List String) (i : Nat) (pc : PeriodCol),
      pc ∈ resolveAux year_row i hdr ↔
        ∃ j label, hdr[j]? = some label ∧ resolveCol year_row (i + j) label = some pc := by
  intro hdr
  induction hdr with
  | nil => intro i pc; simp [resolveAux]
  | cons label0 rest ih =>
    intro i pc
    simp only [resolveAux]
    constructor
    · intro hm
      cases hrc : resolveCol year_row i label0 with
      | some pc0 =>
        rw [hrc] at hm
        rcases List.mem_cons.mp hm with he | hm2
        · exact ⟨0, label0, by simp, by rw [Nat.add_zero, hrc, he]⟩
        · rcases (ih (i + 1) pc).mp hm2 with ⟨j, lbl, hg, hcol⟩
          refine ⟨j + 1, lbl, by simpa using hg, ?_⟩
          rw [show i + (j + 1) = i + 1 + j from by omega]
          exact hcol
      | none =>
        rw [hrc] at hm
        rcases (ih (i + 1) pc).mp hm with ⟨j, lbl, hg, hcol⟩
        refine ⟨j + 1, lbl, by simpa using hg, ?_⟩
        rw [show i + (j + 1) = i + 1 + j from by omega]
        exact hcol
    · rintro ⟨j, lbl, hg, hcol⟩
      cases j with
      | zero =>
        rw [Nat.add_zero] at hcol
        simp only [List.getElem?_cons_zero, Option.some.injEq] at hg
        subst hg
        rw [hcol]
        exact List.mem_cons_self _ _
      | succ j0 =>
        simp only [List.getElem?_cons_succ] at hg
        have hm : pc ∈ resolveAux year_row (i + 1) rest :=
          (ih (i + 1) pc).mpr
            ⟨j0, lbl, hg,
             by rw [show i + 1 + j0 = i + (j0 + 1) from by omega]; exact hcol⟩
        cases hrc : resolveCol year_row i label0 with
        | some pc0 => exact List.mem_cons_of_mem _ hm
        | none => exact hm

/-- C5: a column index beyond the fixed 9-column prefix is resolved into
the period-column mapping exactly when its year cell normalises to a
present value that parses as an integer and its label cell normalises to a
text whose upper-casing is one of the fixed period names; every other
column is simply absent from the mapping (the resolver is total, so no
header shape raises). -/
theorem c5_period_columns (year_row header_row : List String) (idx : Nat)
    (h9 : 9 ≤ idx) :
    (∃ pc ∈ resolvePeriodCols year_row header_row, pc.idx = idx) ↔
    (∃ label year_value period_label period_key year_int,
      header_row[idx]? = some label ∧
      normalizeOpt year_row[idx]? = some year_value ∧
      pyInt year_value = some year_int ∧
      normalize_text label = some period_label ∧
      PERIOD_MAP (pyUpper period_label) = some period_key) := by
  constructor
  · rintro ⟨pc, hmem, hidx⟩
    rcases (mem_resolveAux header_row 0 pc).mp hmem with ⟨j, lbl, hg, hcol⟩
    rw [Nat.zero_add] at hcol
    have hj := resolveCol_idx hcol
    have hji : j = idx := by omega
    subst hji
    rcases resolveCol_eq_some_iff.mp hcol with ⟨_, yv, plbl, key, n, hy, hl, hp, hn, _⟩
    exact ⟨lbl, yv, plbl, key, n, hg, hy, hn, hl, hp⟩
  · rintro ⟨label, yv, plbl, key, n, hg, hy, hn, hl, hp⟩
    refine ⟨⟨idx, key, plbl, n⟩, ?_, rfl⟩
    exact (mem_resolveAux header_row 0 _).mpr
      ⟨idx, label, hg,
       by
         rw [Nat.zero_add]
         exact resolveCol_eq_some_iff.mpr
           ⟨by omega, yv, plbl, key, n, hy, hl, hp, hn, rfl⟩⟩

/-- C5 witness: column 9 of a concrete header pair resolves. -/
theorem c5_witness :
    ∃ pc ∈ resolvePeriodCols
      ["", "", "", "", "", "", "", "", "", "2024"]
      ["", "", "", "", "", "", "", "", "", "PERIODO 1"], pc.idx = 9 :=
  (c5_period_columns
    ["", "", "", "", "", "", "", "", "", "2024"]
    ["", "", "", "", "", "", "", "", "", "PERIODO 1"] 9 (by omega)).mpr
    ⟨"PERIODO 1", "2024", "PERIODO 1", "P1", 2024, rfl, rfl, rfl, rfl, rfl⟩

/-! ### NA-sentinel lemmas for C9 -/

/-- Skipping elements on which the mapped function is `none` anyway does
not change a `filterMap`. -/
theorem filterMap_filter_of_none {α β : Type} (f : α → Option β) (p : α → Bool)
    (h : ∀ a, p a = false → f a = none) :
    ∀ l : List α, l.filterMap f = (l.filter p).filterMap f := by
  intro l
  induction l with
  | nil => rfl
  | cons a t ih =>
    cases hp : p a with
    | true => simp [List.filter_cons, hp, List.filterMap_cons, ih]
    | false => simp [List.filter_cons, hp, List.filterMap_cons, h a hp, ih]

/-- C9: a cell whose stripped text is one of the `NA_VALUES` sentinels is
treated as absent throughout the pipeline: it normalises to `None`; as the
instrument-code cell it makes the row emit no events; as the frequency cell
it leaves every event of the row without a frequency; as a year or label
header cell it leaves that column unresolved; and as a period-value cell it
contributes no event for that column. -/
theorem c9_na_sentinels (v : String) (hv : pyStrip v ∈ NA_VALUES) :
    normalize_text v = none ∧
    (∀ period_columns row, row.getD 4 "" = v →
      dataRowEvents period_columns row = .ok []) ∧
    (∀ period_columns row events ev, row.getD 8 "" = v →
      dataRowEvents period_columns row = .ok events → ev ∈ events →
      ev.frecuencia_meses = none) ∧
    (∀ year_row header_row idx pc,
      (year_row[idx]? = some v ∨ header_row[idx]? = some v) →
      pc ∈ resolvePeriodCols year_row header_row → pc.idx ≠ idx) ∧
    (∀ period_columns row idx, row[idx]? = some v →
      dataRowEvents period_columns row =
        dataRowEvents (period_columns.filter (fun pc => pc.idx ≠ idx)) row) := by
  have hnorm : normalize_text v = none := by simp [normalize_text, hv]
  refine ⟨hnorm, ?_, ?_, ?_, ?_⟩
  · intro period_columns row h4
    unfold dataRowEvents
    split
    · rfl
    · split
      · rfl
      · rw [h4, hnorm]
  · intro period_columns row events ev h8 hrun hmem
    unfold dataRowEvents at hrun
    split at hrun
    · cases hrun; simp at hmem
    · split at hrun
      · cases hrun; simp at hmem
      · split at hrun
        · cases hrun; simp at hmem
        · rw [h8, hnorm] at hrun
          simp only [frecuenciaOf] at hrun
          cases hrun
          rcases List.mem_filterMap.mp hmem with ⟨pc, _, hcol⟩
          unfold colEvent at hcol
          split at hcol
          · cases hcol
          · split at hcol
            · cases hcol
            · split at hcol
              · cases hcol
              · cases hcol; rfl
  · intro year_row header_row idx pc hcell hmem hidx
    rcases (mem_resolveAux header_row 0 pc).mp hmem with ⟨j, lbl, hg, hcol⟩
    rw [Nat.zero_add] at hcol
    have hj := resolveCol_idx hcol
    have hji : j = idx := by omega
    subst hji
    rcases resolveCol_eq_some_iff.mp hcol with ⟨_, yv, plbl, key, n, hy, hl, _, _, _⟩
    rcases hcell with hcell | hcell
    · rw [hcell] at hy
      rw [show normalizeOpt (some v) = normalize_text v from rfl, hnorm] at hy
      cases hy
    · rw [hcell] at hg
      injection hg with hg
      rw [← hg, hnorm] at hl
      cases hl
  · intro period_columns row idx hcell
    have hlt : idx < row.length := by
      by_contra hcon
      rw [List.getElem?_eq_none (by omega)] at hcell
      cases hcell
    have hnone : ∀ pc : PeriodCol,
        (decide (pc.idx ≠ idx)) = false →
        ∀ c r f, colEvent c r f row pc = none := by
      intro pc hpc c r f
      have hpi : pc.idx = idx := by
        by_contra hne
        rw [decide_eq_false_iff_not] at hpc
        exact hpc hne
      unfold colEvent
      rw [if_neg (by omega)]
      rw [hpi, List.getD_eq_getElem?_getD, hcell]
      simp [hnorm]
    unfold dataRowEvents
    split
    · rfl
    · split
      · rfl
      · cases hcode : normalize_text (row.getD 4 "") with
        | none => rfl
        | some codigo =>
          cases hfreq : frecuenciaOf (normalize_text (row.getD 8 "")) with
          | error e => rfl
          | ok f =>
            exact congrArg Except.ok
              (filterMap_filter_of_none _ _
                (fun pc hpc => hnone pc hpc codigo (normalize_text (row.getD 7 "")) f)
                period_columns)

/-- C9 witness: the sentinel `" N/A "` (which strips to `N/A`) instantiated
as a concrete instrument-code cell. -/
theorem c9_witness :
    pyStrip " N/A " ∈ NA_VALUES ∧
    normalize_text " N/A " = none ∧
    dataRowEvents [⟨9, "P1", "PERIODO 1", 2024⟩]
      ["a", "", "", "", " N/A ", "", "", "", "12", "10-ENE-24"] = .ok [] :=
  ⟨by decide, (c9_na_sentinels " N/A " (by decide)).1,
   (c9_na_sentinels " N/A " (by decide)).2.1 _ _ rfl⟩

/-! ### Structure of the emitted SQL for C2 -/

/-- Length of a `flatMap` with uniform four-element blocks. -/
theorem flatMap_block_length {α β : Type} (f : α → List β)
    (hf : ∀ x, (f x).length = 4) :
    ∀ l : List α, (l.flatMap f).length = 4 * l.length := by
  intro l
  induction l with
  | nil => rfl
  | cons a t ih =>
    rw [List.flatMap_cons, List.length_append, hf a, ih, List.length_cons]
    omega

/-- Indexing inside a `flatMap` with uniform four-element blocks. -/
theorem flatMap_block_get {α β : Type} (f : α → List β)
    (hf : ∀ x, (f x).length = 4) :
    ∀ (l : List α) (i j : Nat) (hi : i < l.length), j < 4 →
      (l.flatMap f)[4 * i + j]? = (f (l.get ⟨i, hi⟩))[j]? := by
  intro l
  induction l with
  | nil => intro i j hi _; exact absurd hi (by simp)
  | cons a t ih =>
    intro i j hi hj
    cases i with
    | zero =>
      rw [List.flatMap_cons, List.getElem?_append, hf a, if_pos (by omega)]
      rw [show 4 * 0 + j = j from by omega]
      rfl
    | succ i0 =>
      rw [List.flatMap_cons, List.getElem?_append, hf a, if_neg (by omega)]
      rw [show 4 * (i0 + 1) + j - 4 = 4 * i0 + j from by omega]
      exact ih i0 j (by simpa using hi) hj

/-- Reading `build_sql_lines` past its three header lines. -/
theorem build_sql_lines_getElem (events : List CalibrationEvent)
    (empresa_id : Int) (k : Nat) :
    (build_sql_lines events empresa_id)[3 + k]? =
      (events.flatMap (fun event =>
        [set_line_of event empresa_id, insert_header_line,
         values_line_of event empresa_id, ""]) ++ ["COMMIT;", ""])[k]? := by
  unfold build_sql_lines
  rw [List.append_assoc, List.getElem?_append, if_neg (by simp)]
  simp

/-- C2: for every non-empty event list and tenant id, the script returned
by `build_sql` is the newline-join of a line list that opens with the
comment block and a `START TRANSACTION;` line, closes with a final
`COMMIT;` line (plus the trailing newline's empty line), and holds, per
event `i` and starting at line `3 + 4i`, exactly the instrument-id lookup
`SET` statement for that event's code and tenant, immediately followed by
the `INSERT ... SELECT` guarded by both `@instrumento_id IS NOT NULL` and a
`NOT EXISTS` subquery on the same instrument id, tenant id, calibration
date and period code. -/
theorem c2_build_sql_structure (events : List CalibrationEvent)
    (empresa_id : Int) (hne : events ≠ []) :
    build_sql events empresa_id =
      String.intercalate "\n" (build_sql_lines events empresa_id) ∧
    (build_sql_lines events empresa_id).length = 5 + 4 * events.length ∧
    (build_sql_lines events empresa_id)[0]? =
      some "-- Calibraciones programadas generadas desde CERT_instrumentos_original_v2.csv" ∧
    (build_sql_lines events empresa_id)[2]? = some "START TRANSACTION;" ∧
    (build_sql_lines events empresa_id)[3 + 4 * events.length]? = some "COMMIT;" ∧
    (build_sql_lines events empresa_id)[4 + 4 * events.length]? = some "" ∧
    (∀ i, ∀ hi : i < events.length,
      (build_sql_lines events empresa_id)[3 + 4 * i]? =
        some ("SET @instrumento_id = (SELECT id FROM instrumentos WHERE codigo = '" ++
          sql_escape (events.get ⟨i, hi⟩).codigo ++ "' AND empresa_id = " ++
          toString empresa_id ++ " LIMIT 1);") ∧
      (build_sql_lines events empresa_id)[4 + 4 * i]? =
        some "INSERT INTO calibraciones (instrumento_id, empresa_id, tipo, fecha_calibracion, periodo, fecha_proxima, resultado, observaciones)" ∧
      (build_sql_lines events empresa_id)[5 + 4 * i]? =
        some ("SELECT @instrumento_id, " ++ toString empresa_id ++ ", '" ++
          tipo_of (events.get ⟨i, hi⟩) ++ "', '" ++
          isoformat (events.get ⟨i, hi⟩).fecha ++ "', '" ++
          (events.get ⟨i, hi⟩).periodo ++ "', " ++
          fecha_proxima_sql_of (events.get ⟨i, hi⟩) ++ ", NULL, '" ++
          observaciones_of (events.get ⟨i, hi⟩) ++
          "' FROM DUAL WHERE @instrumento_id IS NOT NULL AND NOT EXISTS (SELECT 1 FROM calibraciones WHERE instrumento_id = @instrumento_id AND empresa_id = " ++
          toString empresa_id ++ " AND fecha_calibracion = '" ++
          isoformat (events.get ⟨i, hi⟩).fecha ++ "' AND periodo = '" ++
          (events.get ⟨i, hi⟩).periodo ++ "');") ∧
      (build_sql_lines events empresa_id)[6 + 4 * i]? = some "") := by
  have hf : ∀ ev : CalibrationEvent,
      ([set_line_of ev empresa_id, insert_header_line,
        values_line_of ev empresa_id, ""] : List String).length = 4 := fun _ => rfl
  have hM := flatMap_block_length _ hf events
  refine ⟨by rw [build_sql, if_neg hne], ?_,
    by simp [build_sql_lines, List.getElem?_append],
    by simp [build_sql_lines, List.getElem?_append], ?_, ?_, ?_⟩
  · unfold build_sql_lines
    rw [List.length_append, List.length_append, hM]
    simp only [List.length_cons, List.length_nil]
    omega
  · rw [build_sql_lines_getElem, List.getElem?_append, hM, if_neg (lt_irrefl _),
        Nat.sub_self]
    rfl
  · rw [show 4 + 4 * events.length = 3 + (4 * events.length + 1) from by omega,
        build_sql_lines_getElem, List.getElem?_append, hM,
        if_neg (by omega : ¬ 4 * events.length + 1 < 4 * events.length),
        show 4 * events.length + 1 - 4 * events.length = 1 from by omega]
    rfl
  · intro i hi
    have h0 : 4 * i + 0 < 4 * events.length := by omega
    have h1 : 4 * i + 1 < 4 * events.length := by omega
    have h2 : 4 * i + 2 < 4 * events.length := by omega
    have h3 : 4 * i + 3 < 4 * events.length := by omega
    refine ⟨?_, ?_, ?_, ?_⟩
    · rw [show 3 + 4 * i = 3 + (4 * i + 0) from by omega,
          build_sql_lines_getElem, List.getElem?_append, hM, if_pos h0,
          flatMap_block_get _ hf events i 0 hi (by omega)]
      rfl
    · rw [show 4 + 4 * i = 3 + (4 * i + 1) from by omega,
          build_sql_lines_getElem, List.getElem?_append, hM, if_pos h1,
          flatMap_block_get _ hf events i 1 hi (by omega)]
      rfl
    · rw [show 5 + 4 * i = 3 + (4 * i + 2) from by omega,
          build_sql_lines_getElem, List.getElem?_append, hM, if_pos h2,
          flatMap_block_get _ hf events i 2 hi (by omega)]
      rfl
    · rw [show 6 + 4 * i = 3 + (4 * i + 3) from by omega,
          build_sql_lines_getElem, List.getElem?_append, hM, if_pos h3,
          flatMap_block_get _ hf events i 3 hi (by omega)]
      rfl

/-- C2 witness: structure of the script for one concrete event. -/
theorem c2_witness :
    (build_sql_lines
      [⟨"BAL-001", ⟨2024, 1, 10⟩, "P1", "PERIODO 1", 2024, none, some 12⟩] 1).length =
      5 + 4 * 1 ∧
    (build_sql_lines
      [⟨"BAL-001", ⟨2024, 1, 10⟩, "P1", "PERIODO 1", 2024, none, some 12⟩] 1)[3]? =
      some "SET @instrumento_id = (SELECT id FROM instrumentos WHERE codigo = 'BAL-001' AND empresa_id = 1 LIMIT 1);" := by
  have h := c2_build_sql_structure
    [⟨"BAL-001", ⟨2024, 1, 10⟩, "P1", "PERIODO 1", 2024, none, some 12⟩] 1
    (List.cons_ne_nil _ _)
  have h3 := (h.2.2.2.2.2.2 0 (by simp)).1
  exact ⟨h.2.1, by rw [show (3 : Nat) = 3 + 4 * 0 from by omega]; exact h3⟩

end CertCal
